import Mathlib

/-!
Verification of the weather proxy (src/weather_proxy.py).

The file shallowly embeds the proxy's pure core: JSON values, the Python dict
and truthiness idioms the source relies on, the configuration loader, the
three-call fetch pipeline, the TTL cache, and the request-handler mapping from
cache results to HTTP responses.  Network access is modelled by an oracle
mapping a URL and a header list to either a decoded JSON body or one of the
error kinds urllib and json.load can raise.  Time is modelled by rational
numbers (Python time.time is real-valued); float formatting inside the points
URL is abstracted by the Rat ToString instance, which is harmless because the
URL text only serves as a key into the quantified oracle.

Concurrency note: _get_cached_weather holds CACHE_LOCK for its whole body,
including the fetch, so every interleaving of concurrent calls is observably
equal to running the calls sequentially at their lock-acquisition times.  The
model therefore exposes a sequential step function on the cache state plus a
fold (runGets) over a list of call times.
-/

/-- JSON values as decoded by json.load: null, booleans, numbers, strings,
arrays, and objects (Python dicts, modelled as ordered key-value lists with
distinct keys on the image of real dicts). -/
inductive Json where
  | null : Json
  | bool (b : Bool) : Json
  | num (q : Rat) : Json
  | str (s : String) : Json
  | arr (elems : List Json) : Json
  | obj (entries : List (String × Json)) : Json

/-- Errors that _make_request can raise: urllib.error.URLError, a timeout, or
json.load's ValueError on an unparsable body. -/
inductive NetErr where
  | urlError (msg : String) : NetErr
  | timeoutError (msg : String) : NetErr
  | valueError (msg : String) : NetErr

/-- Errors the fetch pipeline can raise: a network-layer error from a required
call, the source's ProxyError, and the Python TypeError / AttributeError /
ValueError raised by operations on values of the wrong shape. -/
inductive FetchErr where
  | net (e : NetErr) : FetchErr
  | proxyError (msg : String) : FetchErr
  | typeError (msg : String) : FetchErr
  | attrError (msg : String) : FetchErr
  | valueError (msg : String) : FetchErr

/-- The network oracle: _make_request's observable behaviour, indexed by URL
and by the header list the request carries. -/
def NetOracle : Type := String → List (String × String) → Except NetErr Json

/-- Lift a network error of a required (unprotected) call into the pipeline
error type. -/
def liftNet : Except NetErr Json → Except FetchErr Json
  | .ok j => .ok j
  | .error e => .error (.net e)

/-- First-occurrence lookup in an object's entry list (Python dict lookup;
real dicts have distinct keys). -/
def jLookup : List (String × Json) → String → Option Json
  | [], _ => none
  | (k, v) :: rest, key => if k = key then some v else jLookup rest key

/-- Python truthiness of a JSON value: None, False, 0, empty string, empty
list and empty dict are falsy, everything else truthy. -/
def jTruthy : Json → Bool
  | .null => false
  | .bool b => b
  | .num q => decide (q ≠ 0)
  | .str s => decide (s ≠ "")
  | .arr xs => !xs.isEmpty
  | .obj kvs => !kvs.isEmpty

/-- Python's `a or b` on JSON values. -/
def pyOr (a b : Json) : Json := if jTruthy a then a else b

/-- Python `x.get(key)`: the stored value, None (null) when the key is
absent; AttributeError when x is not a dict. -/
def pyGet (j : Json) (key : String) : Except FetchErr Json :=
  match j with
  | .obj kvs => .ok ((jLookup kvs key).getD Json.null)
  | _ => .error (.attrError ("object has no attribute get: " ++ key))

/-- Python `x.get(key, default)`. -/
def pyGetD (j : Json) (key : String) (dflt : Json) : Except FetchErr Json :=
  match j with
  | .obj kvs => .ok ((jLookup kvs key).getD dflt)
  | _ => .error (.attrError ("object has no attribute get: " ++ key))

/-- Python dict assignment `d[key] = v`: replace the first (for real dicts,
only) binding of the key in place, preserving entry order, appending when the
key is new. -/
def setKey : List (String × Json) → String → Json → List (String × Json)
  | [], key, v => [(key, v)]
  | (k, w) :: rest, key, v =>
      if k = key then (key, v) :: rest else (k, w) :: setKey rest key v

/-- Dict assignment lifted to JSON values; only ever applied to objects. -/
def jSet : Json → String → Json → Json
  | .obj kvs, key, v => .obj (setKey kvs key v)
  | j, _, _ => j

/-- Python `seq[0]`.  The source only reaches this on a truthy features value;
non-sequence cases (where CPython raises KeyError or AttributeError a step
later) are conflated into one fatal TypeError, which no claim distinguishes. -/
def pyIndex0 : Json → Except FetchErr Json
  | .arr (x :: _) => .ok x
  | _ => .error (.typeError "subscript of a non-sequence")

/-- The whitespace characters str.strip removes (ASCII subset of Python's
Unicode whitespace; no claim involves the exotic ones). -/
def isPySpace (c : Char) : Bool :=
  c == ' ' || c == '\t' || c == '\n' || c == '\r' || c == '\x0b' || c == '\x0c'

/-- Python str.strip(): drop whitespace from both ends. -/
def pyStrip (s : String) : String :=
  String.mk (((s.toList.dropWhile isPySpace).reverse.dropWhile isPySpace).reverse)

/-- Python `x.strip()` on a JSON value, as applied to `weather.get("userAgent")
or ""`: succeeds on strings, AttributeError otherwise. -/
def pyStripVal (j : Json) : Except FetchErr String :=
  match j with
  | .str s => .ok (pyStrip s)
  | _ => .error (.attrError "object has no attribute strip")

/-- Source _format_user_agent (weather_proxy.py lines 34-40).  On a string
argument `raw or ""` is the identity, so the model starts at the strip.
Python's single-character `in` test is character membership. -/
def formatUserAgent (raw : String) : String :=
  if pyStrip raw = "" then "LegacyDashboardProxy/1.0 (contact unavailable)"
  else if !((pyStrip raw).toList.contains '/') && !((pyStrip raw).toList.contains '(') then
    "LegacyDashboardProxy/1.0 (" ++ pyStrip raw ++ ")"
  else pyStrip raw

/-- Python float() on a JSON value.  Numbers and booleans convert; numeric
strings (which CPython would also accept) are not modelled, and no claim
involves string coordinates. -/
def pyFloat : Json → Except FetchErr Rat
  | .num q => .ok q
  | .bool b => .ok (if b then 1 else 0)
  | .str s => .error (.valueError ("could not convert string to float: " ++ s))
  | _ => .error (.typeError "float argument must be a string or a real number")

/-- The configuration source: the file is either absent or parses to a JSON
document (json.load failure on a present file is outside every claim). -/
inductive ConfigSource where
  | missing : ConfigSource
  | present (data : Json) : ConfigSource

/-- The triple _load_config returns. -/
structure Config where
  latitude : Rat
  longitude : Rat
  contact : String

/-- Source _load_config (lines 43-58): ProxyError when the file is missing or
a coordinate is None; the contact string is computed (and may raise) before
the coordinate check, exactly as in the source. -/
def loadConfig : ConfigSource → Except FetchErr Config
  | .missing => .error (.proxyError "config.json not found alongside weather_proxy.py")
  | .present data => do
      let weather ← pyGetD data "weather" (Json.obj [])
      let latitude ← pyGet weather "latitude"
      let longitude ← pyGet weather "longitude"
      let contact ← pyStripVal (pyOr (← pyGet weather "userAgent") (Json.str ""))
      match latitude, longitude with
      | Json.null, _ =>
          .error (.proxyError "config.json must supply weather.latitude and weather.longitude")
      | _, Json.null =>
          .error (.proxyError "config.json must supply weather.latitude and weather.longitude")
      | la, lo => do
          let lat ← pyFloat la
          let lon ← pyFloat lo
          pure ⟨lat, lon, contact⟩

/-- The points URL (line 79).  CPython renders the coordinates with float
repr; the Rat ToString rendering differs textually but the URL is only an
oracle key, quantified in every theorem. -/
def pointsUrl (lat lon : Rat) : String :=
  "https://api.weather.gov/points/" ++ toString lat ++ "," ++ toString lon

/-- Headers built at lines 73-77: Accept, the formatted User-Agent, and a From
header only when the contact is non-empty (_make_request skips None values). -/
def requestHeaders (contact : String) : List (String × String) :=
  [("Accept", "application/geo+json"), ("User-Agent", formatUserAgent contact)]
    ++ (if contact = "" then [] else [("From", contact)])

/-- A URL value handed to _make_request (or to `latest_url + "/"`): must be a
string; CPython raises AttributeError or TypeError on other shapes, conflated
here into one fatal TypeError. -/
def urlString : Json → Except FetchErr String
  | .str s => .ok s
  | _ => .error (.typeError "url must be a string")

/-- Source lines 90-96: read forecast properties, and when periods is a
non-empty list, rebuild the response with periods truncated to the first 6
(dict copy plus assignment, order preserved). -/
def truncatePeriods (forecastData : Json) : Except FetchErr Json := do
  let properties := pyOr (← pyGet forecastData "properties") (Json.obj [])
  let periods ← pyGet properties "periods"
  match periods with
  | Json.arr (p :: ps) =>
      pure (jSet forecastData "properties"
        (jSet properties "periods" (Json.arr (List.take 6 (p :: ps)))))
  | _ => pure forecastData

/-- Source lines 98-109: the observation sub-fetch.  The stations-list call is
NOT inside the try block, so its failure is fatal; only the final
observations/latest call is protected, and its except clause covers every
NetErr kind.  urljoin on the slash-terminated absolute station id appends the
relative path. -/
def fetchObservation (net : NetOracle) (hdrs : List (String × String))
    (stationsUrl : Json) : Except FetchErr Json := do
  if jTruthy stationsUrl then do
    let sUrl ← urlString stationsUrl
    let stationsData ← liftNet (net sUrl hdrs)
    let features := pyOr (← pyGet stationsData "features") (Json.arr [])
    if jTruthy features then do
      let feature0 ← pyIndex0 features
      let latestId ← pyGet feature0 "id"
      if jTruthy latestId then do
        let idStr ← urlString latestId
        match net (idStr ++ "/observations/latest") hdrs with
        | .ok obs => pure obs
        | .error _ => pure Json.null
      else pure Json.null
    else pure Json.null
  else pure Json.null

/-- What the pipeline has in hand at line 111: the (possibly truncated)
forecast response and the observation response (null when unavailable). -/
structure PipelineOut where
  forecastData : Json
  observation : Json

/-- Source lines 70-109: config load, points call, URL extraction with the
fatal forecast-URL check, forecast call with truncation, observation
sub-fetch. -/
def fetchSteps (cfg : ConfigSource) (net : NetOracle) :
    Except FetchErr PipelineOut := do
  let c ← loadConfig cfg
  let hdrs := requestHeaders c.contact
  let pointData ← liftNet (net (pointsUrl c.latitude c.longitude) hdrs)
  let properties := pyOr (← pyGet pointData "properties") (Json.obj [])
  let forecastUrl ← pyGet properties "forecast"
  let stationsUrl ← pyGet properties "observationStations"
  if jTruthy forecastUrl then do
    let fUrl ← urlString forecastUrl
    let forecastRaw ← liftNet (net fUrl hdrs)
    let forecastData ← truncatePeriods forecastRaw
    let observation ← fetchObservation net hdrs stationsUrl
    pure ⟨forecastData, observation⟩
  else
    .error (.proxyError "Forecast URL unavailable for configured coordinates")

/-- Line 113: `observation.get("properties") if isinstance(observation, dict)
else None`. -/
def obsProps : Json → Json
  | .obj kvs => (jLookup kvs "properties").getD Json.null
  | _ => Json.null

/-- Source _fetch_from_nws (lines 70-114): run the pipeline and assemble the
two-key payload, the forecast field via `get("properties", {})`. -/
def fetchFromNws (cfg : ConfigSource) (net : NetOracle) : Except FetchErr Json := do
  let out ← fetchSteps cfg net
  let forecastField ← pyGetD out.forecastData "properties" (Json.obj [])
  pure (Json.obj [("forecast", forecastField), ("observation", obsProps out.observation)])

/-- CACHE_TTL = 300 seconds (line 25). -/
def CACHE_TTL : Rat := 300

/-- The module-level cache slot: _cache_payload and _cache_timestamp. -/
structure CacheState where
  payload : Option Json
  timestamp : Rat

/-- Initial globals: payload None, timestamp 0.0 (lines 26-27). -/
def initialCache : CacheState := ⟨none, 0⟩

/-- One _get_cached_weather call's observables: the returned value or raised
error, the cache state afterwards, and whether _fetch_from_nws ran. -/
structure GetOutcome where
  result : Except FetchErr Json
  state : CacheState
  fetched : Bool

/-- The hit test of line 121: payload present and now - timestamp < TTL. -/
def cacheHit (st : CacheState) (now : Rat) : Option Json :=
  match st.payload with
  | some p => if now - st.timestamp < CACHE_TTL then some p else none
  | none => none

/-- Source _get_cached_weather (lines 117-127), as the sequential body run
under CACHE_LOCK at lock-acquisition time `now`: hit returns the cached
payload untouched; miss fetches, stores (payload, now) on success, and leaves
the slot unchanged on failure, re-raising the error. -/
def getCachedWeather (cfg : ConfigSource) (net : NetOracle) (now : Rat)
    (st : CacheState) : GetOutcome :=
  match cacheHit st now with
  | some p => ⟨.ok p, st, false⟩
  | none =>
      match fetchFromNws cfg net with
      | .ok payload => ⟨.ok payload, ⟨some payload, now⟩, true⟩
      | .error e => ⟨.error e, st, true⟩

/-- A lock-serialized sequence of _get_cached_weather calls at the given
times: the list of results, the final cache state, and how many times the
fetch pipeline was invoked. -/
def runGets (cfg : ConfigSource) (net : NetOracle) :
    List Rat → CacheState → List (Except FetchErr Json) × CacheState × Nat
  | [], st => ([], st, 0)
  | t :: ts, st =>
      let g := getCachedWeather cfg net t st
      let r := runGets cfg net ts g.state
      (g.result :: r.1, r.2.1, (cond g.fetched 1 0) + r.2.2)

/-- Python path.rstrip of slashes: drop every trailing slash (line 136). -/
def rstripSlash (s : String) : String :=
  String.mk (List.reverse (List.dropWhile (fun c => c = '/') s.toList.reverse))

/-- The handler's observable response: 200 with the (to-be-serialized)
payload, 404, 502 with a message, or an exception that escapes do_GET's two
except clauses. -/
inductive Response where
  | success (payload : Json) : Response
  | notFound : Response
  | badGateway (msg : String) : Response
  | crashed (e : FetchErr) : Response

/-- The message text str(exc) carries for a network-layer error. -/
def netErrMsg : NetErr → String
  | .urlError m => m
  | .timeoutError m => m
  | .valueError m => m

/-- do_GET's except clauses (lines 142-147): ProxyError becomes a 502 with
the error's own message; URLError, TimeoutError and ValueError become a 502
with the generic prefix; TypeError and AttributeError are not caught. -/
def errToResponse : FetchErr → Response
  | .proxyError m => .badGateway m
  | .net e => .badGateway ("Upstream request failed: " ++ netErrMsg e)
  | .valueError m => .badGateway ("Upstream request failed: " ++ m)
  | .typeError m => .crashed (.typeError m)
  | .attrError m => .crashed (.attrError m)

/-- One do_GET call's observables. -/
structure HandlerOutcome where
  response : Response
  state : CacheState

/-- Source do_GET (lines 135-155): route on the slash-stripped path, read
through the cache, map errors to responses. -/
def doGet (cfg : ConfigSource) (net : NetOracle) (path : String) (now : Rat)
    (st : CacheState) : HandlerOutcome :=
  if rstripSlash path = "" ∨ rstripSlash path = "/weather" then
    let g := getCachedWeather cfg net now st
    match g.result with
    | .ok p => ⟨.success p, g.state⟩
    | .error e => ⟨errToResponse e, g.state⟩
  else ⟨.notFound, st⟩

/-- A well-formed config file with coordinates (1, 2) and no contact entry. -/
def demoConfigJson : Json :=
  Json.obj [("weather", Json.obj [("latitude", Json.num 1), ("longitude", Json.num 2)])]

/-- The config source backed by demoConfigJson. -/
def demoCfg : ConfigSource := ConfigSource.present demoConfigJson

/-- A points response carrying a forecast URL and a null stations URL. -/
def demoPointData : Json :=
  Json.obj [("properties", Json.obj
    [("forecast", Json.str "https://example.org/forecast"),
     ("observationStations", Json.null)])]

/-- A forecast response with an empty properties object. -/
def demoForecastData : Json := Json.obj [("properties", Json.obj [])]

/-- An oracle serving demoPointData and demoForecastData and failing every
other URL. -/
def demoNet : NetOracle := fun u _ =>
  if u = pointsUrl 1 2 then Except.ok demoPointData
  else if u = "https://example.org/forecast" then Except.ok demoForecastData
  else Except.error (NetErr.urlError "unexpected url")

/-- The payload demoNet yields: an empty forecast mapping and no observation. -/
def demoPayload : Json :=
  Json.obj [("forecast", Json.obj []), ("observation", Json.null)]

/-- A points response whose properties carry a real stations URL. -/
def stationsPointData : Json :=
  Json.obj [("properties", Json.obj
    [("forecast", Json.str "https://example.org/forecast"),
     ("observationStations", Json.str "https://example.org/stations")])]

/-- An oracle whose station-list call fails with a network error while the
points and forecast calls succeed. -/
def stationsDownNet : NetOracle := fun u _ =>
  if u = pointsUrl 1 2 then Except.ok stationsPointData
  else if u = "https://example.org/forecast" then Except.ok demoForecastData
  else if u = "https://example.org/stations" then Except.error (NetErr.urlError "stations down")
  else Except.error (NetErr.urlError "unexpected url")

/-- Fourteen forecast periods, for exercising the truncation. -/
def periods14 : List Json :=
  [Json.num 1, Json.num 2, Json.num 3, Json.num 4, Json.num 5, Json.num 6, Json.num 7,
   Json.num 8, Json.num 9, Json.num 10, Json.num 11, Json.num 12, Json.num 13, Json.num 14]

/-- An oracle whose forecast response carries 14 periods plus another
property. -/
def periods14Net : NetOracle := fun u _ =>
  if u = pointsUrl 1 2 then Except.ok demoPointData
  else if u = "https://example.org/forecast" then
    Except.ok (Json.obj [("properties", Json.obj
      [("periods", Json.arr periods14), ("title", Json.str "t")])])
  else Except.error (NetErr.urlError "unexpected url")

theorem except_bind_ok {ε α β : Type} (a : α) (f : α → Except ε β) :
    (Except.ok a >>= f) = f a := rfl

theorem except_bind_error {ε α β : Type} (e : ε) (f : α → Except ε β) :
    ((Except.error e : Except ε α) >>= f) = Except.error e := rfl

theorem except_pure_eq {ε α : Type} (a : α) : (pure a : Except ε α) = Except.ok a := rfl

theorem pyOr_obj (kvs : List (String × Json)) :
    pyOr (Json.obj kvs) (Json.obj []) = Json.obj kvs := by
  cases kvs <;> simp [pyOr, jTruthy]

theorem jLookup_setKey_self (kvs : List (String × Json)) (key : String) (v : Json) :
    jLookup (setKey kvs key v) key = some v := by
  induction kvs with
  | nil => simp [setKey, jLookup]
  | cons kv rest ih =>
      by_cases h : kv.1 = key
      · simp [setKey, h, jLookup]
      · simp [setKey, h, jLookup, ih]

theorem cacheHit_none_of_stale (st : CacheState) (now : Rat)
    (h : st.payload = none ∨ CACHE_TTL ≤ now - st.timestamp) :
    cacheHit st now = none := by
  rcases h with h | h
  · simp [cacheHit, h]
  · cases hp : st.payload with
    | none => simp [cacheHit, hp]
    | some p => simp [cacheHit, hp, not_lt.mpr h]

theorem getCachedWeather_hit (cfg : ConfigSource) (net : NetOracle) (now : Rat)
    (st : CacheState) (p : Json) (hp : st.payload = some p)
    (hfresh : now - st.timestamp < CACHE_TTL) :
    getCachedWeather cfg net now st = ⟨Except.ok p, st, false⟩ := by
  simp [getCachedWeather, cacheHit, hp, hfresh]

theorem getCachedWeather_miss_ok (cfg : ConfigSource) (net : NetOracle) (now : Rat)
    (st : CacheState) (q : Json) (hmiss : cacheHit st now = none)
    (hfetch : fetchFromNws cfg net = Except.ok q) :
    getCachedWeather cfg net now st = ⟨Except.ok q, ⟨some q, now⟩, true⟩ := by
  simp [getCachedWeather, hmiss, hfetch]

theorem getCachedWeather_miss_error (cfg : ConfigSource) (net : NetOracle) (now : Rat)
    (st : CacheState) (e : FetchErr) (hmiss : cacheHit st now = none)
    (hfetch : fetchFromNws cfg net = Except.error e) :
    getCachedWeather cfg net now st = ⟨Except.error e, st, true⟩ := by
  simp [getCachedWeather, hmiss, hfetch]

theorem fetchFromNws_config_error (cfg : ConfigSource) (net : NetOracle) (e : FetchErr)
    (h : loadConfig cfg = Except.error e) :
    fetchFromNws cfg net = Except.error e := by
  simp [fetchFromNws, fetchSteps, h, except_bind_error]

/-- C9 counterexample: the claim quantifies over every contact string, but the
source strips whitespace first; the all-space contact string is non-empty and
contains neither a slash nor a parenthesis, so the claim predicts the wrapped
form, while the code returns the empty-contact fallback. -/
theorem user_agent_strip_cex :
    formatUserAgent " " = "LegacyDashboardProxy/1.0 (contact unavailable)" ∧
    " " ≠ "" ∧
    (" ".toList.contains '/') = false ∧
    (" ".toList.contains '(') = false ∧
    formatUserAgent " " ≠ "LegacyDashboardProxy/1.0 ( )" := by
  refine ⟨rfl, by decide, by decide, by decide, by decide⟩

/-- C9 amended: the contact string is first stripped of surrounding
whitespace; if the stripped text is empty the User-Agent is the fallback
string, if it contains neither a slash nor an opening parenthesis it is
wrapped, and otherwise the stripped text is used verbatim (so the original
claim holds for every contact string that carries no surrounding
whitespace). -/
theorem user_agent_after_strip (raw : String) :
    (pyStrip raw = "" →
        formatUserAgent raw = "LegacyDashboardProxy/1.0 (contact unavailable)") ∧
    (pyStrip raw ≠ "" → ((pyStrip raw).toList.contains '/') = false →
        ((pyStrip raw).toList.contains '(') = false →
        formatUserAgent raw = "LegacyDashboardProxy/1.0 (" ++ pyStrip raw ++ ")") ∧
    (((pyStrip raw).toList.contains '/') = true ∨
        ((pyStrip raw).toList.contains '(') = true →
        formatUserAgent raw = pyStrip raw) := by
  refine ⟨fun h => ?_, fun h1 h2 h3 => ?_, fun h => ?_⟩
  · rw [formatUserAgent, if_pos h]
  · rw [formatUserAgent, if_neg h1, if_pos (by rw [h2, h3]; rfl)]
  · have hne : pyStrip raw ≠ "" := by
      rcases h with h | h <;>
      · intro he
        rw [he] at h
        simp at h
    have hcond : (!((pyStrip raw).toList.contains '/')
        && !((pyStrip raw).toList.contains '(')) ≠ true := by
      rcases h with h | h <;> simp at h ⊢ <;> intro hn
      · exact absurd h hn
      · exact h
    rw [formatUserAgent, if_neg hne, if_neg hcond]

/-- C9 amended witness: a plain e-mail contact is wrapped. -/
theorem user_agent_after_strip_witness :
    formatUserAgent "ops@example.com"
      = "LegacyDashboardProxy/1.0 (" ++ pyStrip "ops@example.com" ++ ")" :=
  (user_agent_after_strip "ops@example.com").2.1 (by decide) (by decide) (by decide)

/-- C4: a cache read with a fresh entry returns the cached payload with no
fetch and no state change; a read with no entry or a stale entry invokes the
fetch pipeline, and on success stores the result with the call timestamp and
returns it. -/
theorem cache_hit_miss_spec (cfg : ConfigSource) (net : NetOracle) (now : Rat)
    (st : CacheState) :
    (∀ p, st.payload = some p → now - st.timestamp < CACHE_TTL →
        getCachedWeather cfg net now st = ⟨Except.ok p, st, false⟩) ∧
    ((st.payload = none ∨ CACHE_TTL ≤ now - st.timestamp) →
        (getCachedWeather cfg net now st).fetched = true ∧
        ∀ q, fetchFromNws cfg net = Except.ok q →
          getCachedWeather cfg net now st = ⟨Except.ok q, ⟨some q, now⟩, true⟩) := by
  constructor
  · intro p hp hfresh
    exact getCachedWeather_hit cfg net now st p hp hfresh
  · intro hstale
    have hmiss := cacheHit_none_of_stale st now hstale
    constructor
    · cases hfetch : fetchFromNws cfg net with
      | ok q => simp [getCachedWeather_miss_ok cfg net now st q hmiss hfetch]
      | error e => simp [getCachedWeather_miss_error cfg net now st e hmiss hfetch]
    · intro q hfetch
      exact getCachedWeather_miss_ok cfg net now st q hmiss hfetch

/-- C4 witness: a fresh entry at age 10 seconds is served without fetching. -/
theorem cache_hit_miss_spec_witness :
    getCachedWeather ConfigSource.missing (fun _ _ => Except.error (NetErr.urlError "down"))
        10 ⟨some (Json.str "w"), 0⟩
      = ⟨Except.ok (Json.str "w"), ⟨some (Json.str "w"), 0⟩, false⟩ :=
  (cache_hit_miss_spec ConfigSource.missing (fun _ _ => Except.error (NetErr.urlError "down"))
      10 ⟨some (Json.str "w"), 0⟩).1 (Json.str "w") rfl
    (by norm_num [CACHE_TTL])

/-- C5: when the fetch fails on a cache miss, the call returns that very
error, the stored entry (payload and timestamp) is left unchanged, and no
error is cached: any later call that still misses (in particular any call at
a later or equal time, the entry being absent or already stale) runs the full
fetch pipeline again. -/
theorem fetch_failure_preserves_cache (cfg : ConfigSource) (net : NetOracle)
    (now : Rat) (st : CacheState) (e : FetchErr)
    (hmiss : st.payload = none ∨ CACHE_TTL ≤ now - st.timestamp)
    (hfail : fetchFromNws cfg net = Except.error e) :
    getCachedWeather cfg net now st = ⟨Except.error e, st, true⟩ ∧
    ∀ (cfg2 : ConfigSource) (net2 : NetOracle) (now2 : Rat), now ≤ now2 →
      (getCachedWeather cfg2 net2 now2 st).fetched = true := by
  have hmiss0 := cacheHit_none_of_stale st now hmiss
  constructor
  · exact getCachedWeather_miss_error cfg net now st e hmiss0 hfail
  · intro cfg2 net2 now2 hle
    have hmiss2 : cacheHit st now2 = none := by
      apply cacheHit_none_of_stale
      rcases hmiss with h | h
      · exact Or.inl h
      · exact Or.inr (le_trans h (by linarith))
    cases hfetch : fetchFromNws cfg2 net2 with
    | ok q => simp [getCachedWeather_miss_ok cfg2 net2 now2 st q hmiss2 hfetch]
    | error e2 => simp [getCachedWeather_miss_error cfg2 net2 now2 st e2 hmiss2 hfetch]

/-- C5 witness: a missing config file makes the fetch fail; the cold cache
stays cold and the error is returned. -/
theorem fetch_failure_preserves_cache_witness :
    getCachedWeather ConfigSource.missing (fun _ _ => Except.error (NetErr.urlError "down"))
        0 initialCache
      = ⟨Except.error (FetchErr.proxyError "config.json not found alongside weather_proxy.py"),
         initialCache, true⟩ :=
  (fetch_failure_preserves_cache ConfigSource.missing
      (fun _ _ => Except.error (NetErr.urlError "down")) 0 initialCache
      (FetchErr.proxyError "config.json not found alongside weather_proxy.py")
      (Or.inl rfl) rfl).1

/-- C6: whenever the cache read behind a weather-route request fails with a
ProxyError (the exception class carrying both configuration and
pipeline-level failures), the handler responds 502 with that error's own
message text; moreover the cache layer propagates the fetch error object
unwrapped and unaltered. -/
theorem proxy_error_maps_to_bad_gateway (cfg : ConfigSource) (net : NetOracle)
    (path : String) (now : Rat) (st : CacheState) (m : String)
    (hroute : rstripSlash path = "" ∨ rstripSlash path = "/weather")
    (hget : (getCachedWeather cfg net now st).result
      = Except.error (FetchErr.proxyError m)) :
    (doGet cfg net path now st).response = Response.badGateway m ∧
    ∀ (e : FetchErr), cacheHit st now = none →
      fetchFromNws cfg net = Except.error e →
      (getCachedWeather cfg net now st).result = Except.error e := by
  constructor
  · rw [doGet, if_pos hroute]
    simp only [hget]
    rfl
  · intro e hmiss hfetch
    rw [getCachedWeather_miss_error cfg net now st e hmiss hfetch]

/-- C6 witness: a missing config file surfaces as a 502 whose body is exactly
the ProxyError message. -/
theorem proxy_error_maps_to_bad_gateway_witness :
    (doGet ConfigSource.missing (fun _ _ => Except.error (NetErr.urlError "down"))
        "/weather" 0 initialCache).response
      = Response.badGateway "config.json not found alongside weather_proxy.py" :=
  (proxy_error_maps_to_bad_gateway ConfigSource.missing
      (fun _ _ => Except.error (NetErr.urlError "down")) "/weather" 0 initialCache
      "config.json not found alongside weather_proxy.py" (Or.inr rfl) rfl).1

/-- C3 counterexample: with the config file missing, the process serves
requests anyway and the weather route answers 502 carrying the configuration
error message, so the condition IS surfaced as a per-request error response,
contradicting the claimed startup-time fatality (main never calls
_load_config; the loader runs inside _fetch_from_nws on each fetch). -/
theorem config_error_served_per_request_cex :
    (doGet ConfigSource.missing (fun _ _ => Except.error (NetErr.urlError "unreachable"))
        "/weather" 0 initialCache).response
      = Response.badGateway "config.json not found alongside weather_proxy.py" := rfl

/-- C3 amended: a missing config file or missing coordinates is not checked
at startup; the server starts and serves regardless, and each weather-route
request whose cache read reaches the fetch fails per-request with a 502
carrying the corresponding ProxyError message. -/
theorem config_errors_surface_as_bad_gateway (net : NetOracle) (path : String)
    (now : Rat) (st : CacheState) (data : Json)
    (hroute : rstripSlash path = "" ∨ rstripSlash path = "/weather")
    (hmiss : cacheHit st now = none) :
    (doGet ConfigSource.missing net path now st).response
      = Response.badGateway "config.json not found alongside weather_proxy.py" ∧
    (loadConfig (ConfigSource.present data) = Except.error (FetchErr.proxyError
        "config.json must supply weather.latitude and weather.longitude") →
      (doGet (ConfigSource.present data) net path now st).response
        = Response.badGateway "config.json must supply weather.latitude and weather.longitude") := by
  constructor
  · have hfetch : fetchFromNws ConfigSource.missing net
        = Except.error (FetchErr.proxyError "config.json not found alongside weather_proxy.py") :=
      fetchFromNws_config_error _ _ _ rfl
    rw [doGet, if_pos hroute,
      getCachedWeather_miss_error _ _ _ _ _ hmiss hfetch]
    rfl
  · intro hcfg
    have hfetch : fetchFromNws (ConfigSource.present data) net
        = Except.error (FetchErr.proxyError
            "config.json must supply weather.latitude and weather.longitude") :=
      fetchFromNws_config_error _ _ _ hcfg
    rw [doGet, if_pos hroute,
      getCachedWeather_miss_error _ _ _ _ _ hmiss hfetch]
    rfl

/-- C3 amended witness: a config file whose weather section lacks the
coordinates yields the per-request 502 with the coordinate message. -/
theorem config_errors_surface_as_bad_gateway_witness :
    (doGet (ConfigSource.present (Json.obj [("weather", Json.obj [])]))
        (fun _ _ => Except.error (NetErr.urlError "x")) "/weather" 0 initialCache).response
      = Response.badGateway "config.json must supply weather.latitude and weather.longitude" :=
  (config_errors_surface_as_bad_gateway (fun _ _ => Except.error (NetErr.urlError "x"))
      "/weather" 0 initialCache (Json.obj [("weather", Json.obj [])])
      (Or.inr rfl) rfl).2 rfl

/-- C8 counterexample: on a points response with no forecast URL the fetch
does fail fatally with a ProxyError, but its message is the source's
"Forecast URL unavailable for configured coordinates", not the claimed
"forecast URL unavailable". -/
theorem forecast_url_message_cex :
    fetchFromNws demoCfg (fun u _ =>
        if u = pointsUrl 1 2 then Except.ok (Json.obj [("properties", Json.obj [])])
        else Except.error (NetErr.urlError "x"))
      = Except.error (FetchErr.proxyError "Forecast URL unavailable for configured coordinates") ∧
    "Forecast URL unavailable for configured coordinates" ≠ "forecast URL unavailable" :=
  ⟨rfl, by decide⟩

theorem liftNet_ok (j : Json) : liftNet (Except.ok j) = Except.ok j := rfl

theorem liftNet_error (e : NetErr) :
    liftNet (Except.error e) = Except.error (FetchErr.net e) := rfl

theorem jTruthy_str_of_ne (s : String) (h : s ≠ "") : jTruthy (Json.str s) = true := by
  simp [jTruthy, h]

theorem truncatePeriods_spec (fkvs prkvs : List (String × Json)) (xs : List Json)
    (hfprops : jLookup fkvs "properties" = some (Json.obj prkvs))
    (hperiods : jLookup prkvs "periods" = some (Json.arr xs))
    (hxs : xs ≠ []) :
    truncatePeriods (Json.obj fkvs)
      = Except.ok (Json.obj (setKey fkvs "properties"
          (Json.obj (setKey prkvs "periods" (Json.arr (List.take 6 xs)))))) := by
  cases xs with
  | nil => exact absurd rfl hxs
  | cons p ps =>
      simp [truncatePeriods, pyGet, hfprops, pyOr_obj, hperiods, jSet,
        except_bind_ok, except_pure_eq]

/-- C8 amended: when the points response carries no (truthy) forecast URL the
whole fetch fails with a ProxyError whose message is the source's text
"Forecast URL unavailable for configured coordinates" (the claim's quoted
message "forecast URL unavailable" differs), the failure is fatal for the
fetch, and no retry occurs within the call: any oracle that agrees on the
points request fails identically, so nothing after the points call is ever
consulted. -/
theorem missing_forecast_url_fatal (cfg : ConfigSource) (net : NetOracle)
    (c : Config) (pointData props fUrl sUrl : Json)
    (hcfg : loadConfig cfg = Except.ok c)
    (hpoint : net (pointsUrl c.latitude c.longitude) (requestHeaders c.contact)
      = Except.ok pointData)
    (hprops : pyGet pointData "properties" = Except.ok props)
    (hfurl : pyGet (pyOr props (Json.obj [])) "forecast" = Except.ok fUrl)
    (hsurl : pyGet (pyOr props (Json.obj [])) "observationStations" = Except.ok sUrl)
    (hfalsy : jTruthy fUrl = false) :
    fetchFromNws cfg net
      = Except.error (FetchErr.proxyError
          "Forecast URL unavailable for configured coordinates") ∧
    ∀ net2 : NetOracle,
      net2 (pointsUrl c.latitude c.longitude) (requestHeaders c.contact)
        = Except.ok pointData →
      fetchFromNws cfg net2
        = Except.error (FetchErr.proxyError
            "Forecast URL unavailable for configured coordinates") := by
  have key : ∀ net3 : NetOracle,
      net3 (pointsUrl c.latitude c.longitude) (requestHeaders c.contact)
        = Except.ok pointData →
      fetchFromNws cfg net3
        = Except.error (FetchErr.proxyError
            "Forecast URL unavailable for configured coordinates") := by
    intro net3 hp3
    simp [fetchFromNws, fetchSteps, hcfg, except_bind_ok, hp3, liftNet_ok, hprops,
      hfurl, hsurl, hfalsy, except_bind_error]
  exact ⟨key net hpoint, key⟩

/-- C8 amended witness: a points response with an empty properties object has
no forecast URL; the fetch fails with the source's message. -/
theorem missing_forecast_url_fatal_witness :
    fetchFromNws demoCfg (fun u _ =>
        if u = pointsUrl 1 2 then Except.ok (Json.obj [("properties", Json.obj [])])
        else Except.error (NetErr.urlError "x"))
      = Except.error (FetchErr.proxyError
          "Forecast URL unavailable for configured coordinates") :=
  (missing_forecast_url_fatal demoCfg
      (fun u _ =>
        if u = pointsUrl 1 2 then Except.ok (Json.obj [("properties", Json.obj [])])
        else Except.error (NetErr.urlError "x"))
      ⟨1, 2, ""⟩ (Json.obj [("properties", Json.obj [])]) (Json.obj [])
      Json.null Json.null rfl rfl rfl rfl rfl rfl).1

/-- C7: along any successful fetch whose forecast response carries a
non-empty periods list, the served payload's forecast mapping holds exactly
the first 6 periods (all of them when there are at most 6), in their original
order, the other forecast properties being preserved in place. -/
theorem periods_truncated_to_first_six (cfg : ConfigSource) (net : NetOracle)
    (c : Config) (pointData props sUrl obs : Json) (fUrl : String)
    (fkvs prkvs : List (String × Json)) (xs : List Json)
    (hcfg : loadConfig cfg = Except.ok c)
    (hpoint : net (pointsUrl c.latitude c.longitude) (requestHeaders c.contact)
      = Except.ok pointData)
    (hprops : pyGet pointData "properties" = Except.ok props)
    (hfurl : pyGet (pyOr props (Json.obj [])) "forecast" = Except.ok (Json.str fUrl))
    (hne : fUrl ≠ "")
    (hsurl : pyGet (pyOr props (Json.obj [])) "observationStations" = Except.ok sUrl)
    (hforecast : net fUrl (requestHeaders c.contact) = Except.ok (Json.obj fkvs))
    (hfprops : jLookup fkvs "properties" = some (Json.obj prkvs))
    (hperiods : jLookup prkvs "periods" = some (Json.arr xs))
    (hxs : xs ≠ [])
    (hobs : fetchObservation net (requestHeaders c.contact) sUrl = Except.ok obs) :
    fetchFromNws cfg net = Except.ok (Json.obj
      [("forecast", Json.obj (setKey prkvs "periods" (Json.arr (List.take 6 xs)))),
       ("observation", obsProps obs)]) ∧
    jLookup (setKey prkvs "periods" (Json.arr (List.take 6 xs))) "periods"
      = some (Json.arr (List.take 6 xs)) ∧
    (xs.length ≤ 6 → List.take 6 xs = xs) := by
  have htr := truncatePeriods_spec fkvs prkvs xs hfprops hperiods hxs
  have ht : jTruthy (Json.str fUrl) = true := jTruthy_str_of_ne fUrl hne
  refine ⟨?_, jLookup_setKey_self prkvs "periods" (Json.arr (List.take 6 xs)),
    fun h => List.take_of_length_le h⟩
  simp [fetchFromNws, fetchSteps, hcfg, except_bind_ok, hpoint, liftNet_ok, hprops,
    hfurl, hsurl, ht, urlString, hforecast, htr, hobs, except_pure_eq,
    pyGetD, jLookup_setKey_self]

/-- C7 witness: a 14-period forecast response is served with exactly the
first 6 periods, the sibling property intact. -/
theorem periods_truncated_to_first_six_witness :
    fetchFromNws demoCfg periods14Net = Except.ok (Json.obj
      [("forecast", Json.obj
         [("periods", Json.arr (List.take 6 periods14)), ("title", Json.str "t")]),
       ("observation", Json.null)]) :=
  (periods_truncated_to_first_six demoCfg periods14Net ⟨1, 2, ""⟩ demoPointData
      (Json.obj [("forecast", Json.str "https://example.org/forecast"),
        ("observationStations", Json.null)])
      Json.null Json.null "https://example.org/forecast"
      [("properties", Json.obj [("periods", Json.arr periods14), ("title", Json.str "t")])]
      [("periods", Json.arr periods14), ("title", Json.str "t")]
      periods14 rfl rfl rfl rfl (by decide) rfl rfl rfl rfl
      (by simp [periods14]) rfl).1

/-- C10: every successful fetch returns an object with exactly the two keys
forecast and observation, in that order: forecast is the final forecast
response's properties value, defaulting to the empty object when the key is
absent, and observation is the observation response's properties lookup when
that response is a JSON object (null when the key is absent) and null in
every other case, including a successful observation fetch that returned a
non-object. -/
theorem payload_shape (cfg : ConfigSource) (net : NetOracle) (p : Json)
    (h : fetchFromNws cfg net = Except.ok p) :
    (∃ out fkvs, fetchSteps cfg net = Except.ok out ∧
      out.forecastData = Json.obj fkvs ∧
      p = Json.obj
        [("forecast", (jLookup fkvs "properties").getD (Json.obj [])),
         ("observation", obsProps out.observation)]) ∧
    (∀ kvs, obsProps (Json.obj kvs) = (jLookup kvs "properties").getD Json.null) ∧
    (∀ j : Json, (∀ kvs, j ≠ Json.obj kvs) → obsProps j = Json.null) := by
  refine ⟨?_, fun kvs => rfl, fun j hj => ?_⟩
  · rw [fetchFromNws] at h
    cases hs : fetchSteps cfg net with
    | error e => rw [hs] at h; simp [except_bind_error] at h
    | ok out =>
        rw [hs, except_bind_ok] at h
        cases hf : out.forecastData with
        | obj fkvs =>
            rw [hf] at h
            refine ⟨out, fkvs, rfl, hf, ?_⟩
            simp [pyGetD, except_bind_ok, except_pure_eq] at h
            exact h.symm
        | null => rw [hf] at h; simp [pyGetD, except_bind_error] at h
        | bool b => rw [hf] at h; simp [pyGetD, except_bind_error] at h
        | num q => rw [hf] at h; simp [pyGetD, except_bind_error] at h
        | str s => rw [hf] at h; simp [pyGetD, except_bind_error] at h
        | arr xs => rw [hf] at h; simp [pyGetD, except_bind_error] at h
  · cases j with
    | obj kvs => exact absurd rfl (hj kvs)
    | null => rfl
    | bool b => rfl
    | num q => rfl
    | str s => rfl
    | arr xs => rfl

/-- C10 witness: the demo run produces exactly the two-key payload with an
empty forecast mapping and a null observation. -/
theorem payload_shape_witness :
    (∃ out fkvs, fetchSteps demoCfg demoNet = Except.ok out ∧
      out.forecastData = Json.obj fkvs ∧
      demoPayload = Json.obj
        [("forecast", (jLookup fkvs "properties").getD (Json.obj [])),
         ("observation", obsProps out.observation)]) ∧
    (∀ kvs, obsProps (Json.obj kvs) = (jLookup kvs "properties").getD Json.null) ∧
    (∀ j : Json, (∀ kvs, j ≠ Json.obj kvs) → obsProps j = Json.null) :=
  payload_shape demoCfg demoNet demoPayload rfl

/-- C2 counterexample: with the points and forecast calls succeeding and a
stations URL present, a network failure of the station-list fetch — a step-3
failure in the claim's enumeration — is NOT non-fatal: the call at source
line 100 sits outside the try block, the whole fetch raises, and the weather
route answers 502, not 200. -/
theorem stations_fetch_failure_is_fatal_cex :
    fetchFromNws demoCfg stationsDownNet
      = Except.error (FetchErr.net (NetErr.urlError "stations down")) ∧
    (doGet demoCfg stationsDownNet "/weather" 0 initialCache).response
      = Response.badGateway "Upstream request failed: stations down" :=
  ⟨rfl, rfl⟩

theorem pyGet_obj (kvs : List (String × Json)) (key : String) :
    pyGet (Json.obj kvs) key = Except.ok ((jLookup kvs key).getD Json.null) := rfl

theorem jTruthy_null : jTruthy Json.null = false := rfl

theorem jTruthy_arr_nil : jTruthy (Json.arr []) = false := rfl

theorem jTruthy_arr_cons (x : Json) (xs : List Json) :
    jTruthy (Json.arr (x :: xs)) = true := by simp [jTruthy]

/-- C2 amended: within step 3, only failures downstream of the station-list
fetch are non-fatal: a falsy stations URL, a falsy features list, a missing
or null first-station id, and any network, timeout or parse failure of the
final latest-observation fetch each leave the pipeline successful with
observation null, and such a successful fetch is served as 200 with the
forecast intact; but a failure of the station-list fetch itself propagates
and fails the whole fetch. -/
theorem observation_failures_nonfatal (net : NetOracle) (hdrs : List (String × String))
    (s : String) (hs : s ≠ "") :
    fetchObservation net hdrs Json.null = Except.ok Json.null ∧
    (∀ e, net s hdrs = Except.error e →
      fetchObservation net hdrs (Json.str s) = Except.error (FetchErr.net e)) ∧
    (∀ stationsData feats, net s hdrs = Except.ok stationsData →
      pyGet stationsData "features" = Except.ok feats → jTruthy feats = false →
      fetchObservation net hdrs (Json.str s) = Except.ok Json.null) ∧
    (∀ stationsData f0kvs rest, net s hdrs = Except.ok stationsData →
      pyGet stationsData "features" = Except.ok (Json.arr (Json.obj f0kvs :: rest)) →
      (jLookup f0kvs "id").getD Json.null = Json.null →
      fetchObservation net hdrs (Json.str s) = Except.ok Json.null) ∧
    (∀ stationsData f0kvs rest idS e, net s hdrs = Except.ok stationsData →
      pyGet stationsData "features" = Except.ok (Json.arr (Json.obj f0kvs :: rest)) →
      jLookup f0kvs "id" = some (Json.str idS) → idS ≠ "" →
      net (idS ++ "/observations/latest") hdrs = Except.error e →
      fetchObservation net hdrs (Json.str s) = Except.ok Json.null) ∧
    (∀ (cfg : ConfigSource) (out : PipelineOut) (fkvs : List (String × Json)),
      fetchSteps cfg net = Except.ok out → out.observation = Json.null →
      out.forecastData = Json.obj fkvs →
      ∀ now st, cacheHit st now = none →
        (doGet cfg net "/weather" now st).response
          = Response.success (Json.obj
              [("forecast", (jLookup fkvs "properties").getD (Json.obj [])),
               ("observation", Json.null)])) := by
  have ht : jTruthy (Json.str s) = true := jTruthy_str_of_ne s hs
  refine ⟨rfl, fun e he => ?_, fun sd feats hsd hf hfalse => ?_,
    fun sd f0kvs rest hsd hf hid => ?_,
    fun sd f0kvs rest idS e hsd hf hid hidne hobs => ?_,
    fun cfg out fkvs hsteps hobs hfd now st hmiss => ?_⟩
  · simp [fetchObservation, ht, urlString, he, liftNet, except_bind_ok,
      except_bind_error]
  · have hpy : pyOr feats (Json.arr []) = Json.arr [] := by simp [pyOr, hfalse]
    simp [fetchObservation, ht, urlString, hsd, hf, liftNet, except_bind_ok, hpy,
      jTruthy_arr_nil, except_pure_eq]
  · have hpy : pyOr (Json.arr (Json.obj f0kvs :: rest)) (Json.arr [])
        = Json.arr (Json.obj f0kvs :: rest) := by simp [pyOr, jTruthy]
    simp [fetchObservation, ht, urlString, hsd, hf, liftNet, except_bind_ok, hpy,
      jTruthy_arr_cons, pyIndex0, pyGet_obj, hid, jTruthy_null, except_pure_eq]
  · have hpy : pyOr (Json.arr (Json.obj f0kvs :: rest)) (Json.arr [])
        = Json.arr (Json.obj f0kvs :: rest) := by simp [pyOr, jTruthy]
    have hti : jTruthy (Json.str idS) = true := jTruthy_str_of_ne idS hidne
    simp [fetchObservation, ht, urlString, hsd, hf, liftNet, except_bind_ok, hpy,
      jTruthy_arr_cons, pyIndex0, pyGet_obj, hid, hti, hobs, except_pure_eq]
  · have hfetch : fetchFromNws cfg net = Except.ok (Json.obj
        [("forecast", (jLookup fkvs "properties").getD (Json.obj [])),
         ("observation", Json.null)]) := by
      simp [fetchFromNws, hsteps, except_bind_ok, hfd, pyGetD, hobs, obsProps,
        except_pure_eq]
    have hr : rstripSlash "/weather" = "" ∨ rstripSlash "/weather" = "/weather" :=
      Or.inr rfl
    rw [doGet, if_pos hr, getCachedWeather_miss_ok _ _ _ _ _ hmiss hfetch]

/-- C2 amended witness: the latest-observation fetch fails with a network
error and the observation sub-fetch still succeeds with null. -/
theorem observation_failures_nonfatal_witness :
    fetchObservation
        (fun u _ =>
          if u = "https://s" then
            Except.ok (Json.obj
              [("features", Json.arr [Json.obj [("id", Json.str "https://st1")]])])
          else Except.error (NetErr.urlError "boom"))
        [] (Json.str "https://s") = Except.ok Json.null :=
  (observation_failures_nonfatal
      (fun u _ =>
        if u = "https://s" then
          Except.ok (Json.obj
            [("features", Json.arr [Json.obj [("id", Json.str "https://st1")]])])
        else Except.error (NetErr.urlError "boom"))
      [] "https://s" (by decide)).2.2.2.2.1
    (Json.obj [("features", Json.arr [Json.obj [("id", Json.str "https://st1")]])])
    [("id", Json.str "https://st1")] [] "https://st1" (NetErr.urlError "boom")
    rfl rfl rfl (by decide) rfl

theorem runGets_all_hits (cfg : ConfigSource) (net : NetOracle) (p : Json)
    (t0 : Rat) (ts : List Rat)
    (hwin : ∀ t ∈ ts, t - t0 < CACHE_TTL) :
    runGets cfg net ts ⟨some p, t0⟩
      = (List.replicate ts.length (Except.ok p), ⟨some p, t0⟩, 0) := by
  induction ts with
  | nil => rfl
  | cons t ts ih =>
      have h1 : t - t0 < CACHE_TTL := hwin t (List.mem_cons_self t ts)
      have hg := getCachedWeather_hit cfg net t ⟨some p, t0⟩ p rfl h1
      have ih2 := ih (fun u hu => hwin u (List.mem_cons_of_mem t hu))
      simp [runGets, hg, ih2, List.replicate]

/-- C1: under the lock-serialized semantics of _get_cached_weather (the body,
fetch included, runs while holding CACHE_LOCK, so any interleaving of N
concurrent calls equals some sequential run at the lock-acquisition times,
and at most one fetch ever executes at a time), N calls on a cold cache whose
times all lie within one TTL window of the first call invoke the fetch
pipeline exactly once, and every caller receives the same payload. -/
theorem single_flight_within_ttl (cfg : ConfigSource) (net : NetOracle)
    (p : Json) (t0 : Rat) (ts : List Rat) (st : CacheState)
    (hcold : st.payload = none)
    (hok : fetchFromNws cfg net = Except.ok p)
    (hwin : ∀ t ∈ ts, t - t0 < CACHE_TTL) :
    runGets cfg net (t0 :: ts) st
      = (List.replicate (ts.length + 1) (Except.ok p), ⟨some p, t0⟩, 1) := by
  have hmiss : cacheHit st t0 = none := by simp [cacheHit, hcold]
  have hg := getCachedWeather_miss_ok cfg net t0 st p hmiss hok
  have hrest := runGets_all_hits cfg net p t0 ts hwin
  simp [runGets, hg, hrest, List.replicate]

/-- C1 witness: three calls at 0, 10 and 299 seconds on a cold cache fetch
once and all see the same payload. -/
theorem single_flight_within_ttl_witness :
    runGets demoCfg demoNet [0, 10, 299] initialCache
      = (List.replicate 3 (Except.ok demoPayload), ⟨some demoPayload, 0⟩, 1) :=
  single_flight_within_ttl demoCfg demoNet demoPayload 0 [10, 299] initialCache rfl rfl
    (by intro t ht
        simp at ht
        rcases ht with rfl | rfl <;> norm_num [CACHE_TTL])
